import Mathlib

/-!
# TruthLens claim pipeline — shallow embedding and verification

This file embeds the claim-extraction / claim-verification / credibility
pipeline of `src/main_backup.py` (functions `ingest_url`, `extract_claims`,
`verify_claim`, `analyze_source`, `calculate_source_credibility`) and proves
the frozen specification claims about it.

Modelling conventions:
* Python strings are `List Char`; `str.lower`, `str.strip`, `str.split`,
  and the regular-expression operations used by the source are implemented
  character-by-character with the same semantics on the ASCII texts involved.
* Python floats are modelled as `ℚ`: every numeric constant in the source is
  an exact decimal and all comparisons in the source have large margins, so
  rational arithmetic is faithful.  `round(x, 2)` is modelled by `round2`;
  every value the code rounds is an exact multiple of 1/100, where all
  rounding modes agree.
* Wall-clock timestamps (`datetime.now()`) are environment readings with no
  decision logic attached; the timestamp fields are omitted from the records.
* External collaborators (the Gemini oracle, Wikipedia search/page fetch and
  the HTTP fetch) are universally quantified behaviours, each an inductive
  covering success shapes and raised exceptions.  Repository code that
  processes their output (JSON field defaulting, the regex fallback, the
  term-overlap scorer) is embedded faithfully.
* Python `try`/`except` blocks are `Except` computations caught by `pyTry`
  at exactly the boundaries where the source catches; the partially mutated
  record at the raise point is what the handler sees, as in Python.
  Exceptions the source does not catch — the `KeyError` of `analyze_source`
  and the `TypeError` of `verify_claim`'s status resolution — surface as
  `Except.error` results of the embedded functions.
* The in-memory dict `claims_db` is an insertion-ordered association list
  with Python-dict get/set semantics.

Name map between the spec's vocabulary and the source's literals (the spec
renames the provenance/status enums): `oracle` = `"gemini"`,
`heuristic` = `"pattern_matching"`, `fixed-override` = `"demo_hardcoded"`,
`oracle-unstructured-fallback` = `"gemini_regex"`,
`PartiallyTrue` = `"Partially True"`.
-/

/-- Python default whitespace characters stripped by `str.strip` and matched
by the regex class `\s` (ASCII range, which covers all texts involved). -/
def isPySpace (c : Char) : Bool :=
  c = ' ' || c = '\t' || c = '\n' || c = '\x0d' || c = '\x0b' || c = '\x0c'

/-- `str.lower` (ASCII). -/
def lowerL (l : List Char) : List Char := l.map Char.toLower

/-- `str.strip()`: drop leading and trailing whitespace. -/
def pyStrip (l : List Char) : List Char :=
  ((l.dropWhile isPySpace).reverse.dropWhile isPySpace).reverse

/-- `a` is a leading segment of `b`. -/
def isPre : List Char → List Char → Bool
  | [], _ => true
  | _ :: _, [] => false
  | a :: as, b :: bs => a = b && isPre as bs

/-- Python `needle in hay` on strings: substring occurrence. -/
def hasSub (needle : List Char) : List Char → Bool
  | [] => needle.isEmpty
  | c :: t => isPre needle (c :: t) || hasSub needle t

/-- `str.split(sep)` for a one-character separator (accumulator pass). -/
def splitChAux (sep : Char) (acc : List Char) : List Char → List (List Char)
  | [] => [acc.reverse]
  | c :: t => if c = sep then acc.reverse :: splitChAux sep [] t
              else splitChAux sep (c :: acc) t

def splitOnChar (sep : Char) (l : List Char) : List (List Char) :=
  splitChAux sep [] l

/-- `re.split` over a character class: split at every character satisfying
`p` (used for `re.split(r'[.!?]', text)`). -/
def splitPredAux (p : Char → Bool) (acc : List Char) : List Char → List (List Char)
  | [] => [acc.reverse]
  | c :: t => if p c then acc.reverse :: splitPredAux p [] t
              else splitPredAux p (c :: acc) t

def splitOnPred (p : Char → Bool) (l : List Char) : List (List Char) :=
  splitPredAux p [] l

/-- `str.split("//")`: leftmost non-overlapping split on the two-character
separator (used by `ingest_url` for the source domain). -/
def splitDSlashAux (acc : List Char) : List Char → List (List Char)
  | [] => [acc.reverse]
  | '/' :: '/' :: t => acc.reverse :: splitDSlashAux [] t
  | c :: t => splitDSlashAux (c :: acc) t

/-- Numeric value of a digit string. -/
def natVal (l : List Char) : ℕ :=
  l.foldl (fun a c => 10 * a + (c.toNat - '0'.toNat)) 0

/-- Python `float()` restricted to strings drawn from `[\d\.]+` (the only
inputs the source feeds it): at most one dot, at least one digit, else a
`ValueError`. -/
def pyFloat (s : List Char) : Option ℚ :=
  let ip := s.takeWhile Char.isDigit
  match s.drop ip.length with
  | [] => if ip.isEmpty then none else some (natVal ip)
  | '.' :: frac =>
      if frac.all Char.isDigit ∧ (ip ≠ [] ∨ frac ≠ []) then
        some ((natVal ip : ℚ) + (natVal frac : ℚ) / (10 : ℚ) ^ frac.length)
      else none
  | _ => none

/-- Python `round(x, 2)`.  Every value the source rounds is an exact
multiple of 1/100, where all rounding modes (including Python's
round-half-to-even) coincide with floor of `x*100 + 1/2`. -/
def round2 (q : ℚ) : ℚ := ((q * 100 + 1/2).floor : ℚ) / 100

/-- Python `min(a, b)` (returns `a` on ties). -/
def pymin (a b : ℚ) : ℚ := if b < a then b else a

/-- Python `max(a, b)` (returns `a` on ties). -/
def pymax (a b : ℚ) : ℚ := if a < b then b else a

/-- Python exception values that the embedded code can raise or catch.
`typeError` carries the Python type name of the offending operand (the real
message embeds it, e.g. `'>' not supported between instances of 'str' and
'float'`). -/
inductive Exc where
  | keyError (k : String)
  | valueError (m : String)
  | typeError (m : String)
  | extErr (m : String)
deriving DecidableEq

/-- `str(e)` as used when an exception is stored in an error field. -/
def excStr : Exc → String
  | .keyError k => k
  | .valueError m => m
  | .typeError m => m
  | .extErr m => m

/-- A `try` body: `Except.error` carries the exception together with the
mutated state at the raise point, exactly what a Python handler sees. -/
def pyTry {σ : Type} (body : Except (Exc × σ) σ) : σ :=
  match body with
  | .ok s => s
  | .error (_, s) => s

/-- An entry of a verification's `sources` list (`{name, url}`; the wiki
entry's `retrieved` timestamp is a clock value, not modelled). -/
structure SourceRef where
  name : String
  url : String
deriving DecidableEq

/-- A value held by the `confidence_score` slot of the verification dict.
The source stores the oracle's JSON field without any type check, so the
slot can hold a non-number.  `num` covers every value Python compares
numerically (floats, ints and bools); `ill` covers any other JSON value,
tagged with its Python type name (e.g. `"str"`, `"list"`).  An `ill` value
raises a `TypeError` when it reaches an order comparison. -/
inductive ConfVal where
  | num (q : ℚ)
  | ill (pytype : String)
deriving DecidableEq

/-- Does the slot hold a float lying within `[0, 1]`? -/
def confInUnit : ConfVal → Bool
  | .num q => decide (0 ≤ q) && decide (q ≤ 1)
  | .ill _ => false

/-- The `verification` dict built by `verify_claim` (timestamp omitted).
`status` stays a `String`: the source only ever uses it in `==` comparisons
against string literals, where any non-string oracle value behaves exactly
like an unmatched string.  `evidence` stays a list: the source only tests
its truthiness and appends inside a caught `try`, so ill-typed values there
cannot raise either.  `confidence_score` is the one slot whose ill-typing
changes raising behaviour (line 414), hence its `ConfVal` type. -/
structure Verification where
  claim : List Char
  status : String
  confidence_score : ConfVal
  evidence : List (List Char)
  sources : List SourceRef
  verification_method : String
  reasoning : Option (List Char)
deriving DecidableEq

/-- A claim dict as built by `extract_claims` (timestamp omitted); the
optional `verification` key is attached later by `verify_claim`. -/
structure ClaimRec where
  id : String
  text : List Char
  confidence : ℚ
  extraction_method : String
  source_url : String
  verification : Option Verification
deriving DecidableEq

/-- The module-level `claims_db` dict: insertion-ordered association list. -/
def ClaimsDb := List (String × ClaimRec)

/-- `claims_db[k]` lookup (`k in claims_db` is `(dbGet db k).isSome`). -/
def dbGet : ClaimsDb → String → Option ClaimRec
  | [], _ => none
  | (k, c) :: t, key => if k = key then some c else dbGet t key

/-- `claims_db[k] = c`: overwrite in place, append when absent. -/
def dbSet : ClaimsDb → String → ClaimRec → ClaimsDb
  | [], key, c => [(key, c)]
  | (k, c') :: t, key, c =>
      if k = key then (key, c) :: t else (k, c') :: dbSet t key c

/-- `f"claim_{n}"`. -/
def claimId (n : ℕ) : String := "claim_" ++ toString n

/-! ## Claim extraction (`extract_claims`, lines 152–273) -/

/-- Oracle behaviour for one `extract_claims` call: no API key configured,
the `generate_content` call raising, a response without a `text` attribute,
or a response text. -/
inductive OEResp where
  | noKey
  | raise (e : Exc)
  | noText
  | text (s : List Char)

/-- Lowercase ASCII letter, the regex class `[a-z]`. -/
def isLowerAlpha (c : Char) : Bool := 'a' ≤ c && c ≤ 'z'

/-- Does `l` have a leading segment matching `[a-z]+` followed by `suf`?
(prefix-match step of `([a-z]+ing|[a-z]+ed)`). -/
def lcThen (suf : List Char) : List Char → Bool
  | [] => false
  | c :: rest => isLowerAlpha c && (isPre suf rest || lcThen suf rest)

/-- The verb alternatives of the first claim pattern. -/
def verbForms : List (List Char) := ["is".data, "are".data, "was".data, "were".data]

/-- Match of `(is|are|was|were)\s+([a-z]+ing|[a-z]+ed)` anchored at the head
of `l`.  `\s+` must be maximal here because the letter class is disjoint
from whitespace. -/
def pat1At (l : List Char) : Bool :=
  verbForms.any fun v =>
    isPre v l &&
      (let r := l.drop v.length
       match r with
       | c :: _ =>
           isPySpace c &&
             (let r2 := r.dropWhile isPySpace
              lcThen "ing".data r2 || lcThen "ed".data r2)
       | [] => false)

/-- `re.search` of the action-statement pattern: try every start position. -/
def pat1 : List Char → Bool
  | [] => false
  | c :: t => pat1At (c :: t) || pat1 t

/-- `re.search(r'(cause[s]?|lead[s]? to)', s)`: the optional `s` makes the
first alternative equivalent to a `cause` substring. -/
def pat2 (l : List Char) : Bool :=
  hasSub "cause".data l || hasSub "lead to".data l || hasSub "leads to".data l

/-- `re.search(r'according to|study|research', s)`. -/
def pat3 (l : List Char) : Bool :=
  hasSub "according to".data l || hasSub "study".data l || hasSub "research".data l

/-- `re.search(r'all|none|every|always|never', s)`. -/
def pat4 (l : List Char) : Bool :=
  hasSub "all".data l || hasSub "none".data l || hasSub "every".data l ||
    hasSub "always".data l || hasSub "never".data l

/-- The `claim_patterns` table (pattern, confidence boost), in source order. -/
def claim_patterns : List ((List Char → Bool) × ℚ) :=
  [(pat1, 0.7), (pat2, 0.8), (pat3, 0.75), (pat4, 0.9)]

/-- The `for pattern, conf_boost in claim_patterns: ... break` loop: boost of
the first matching pattern, if any. -/
def fbLoop : List ((List Char → Bool) × ℚ) → List Char → Option ℚ
  | [], _ => none
  | (p, b) :: rest, l => if p l then some b else fbLoop rest l

def firstBoost (l : List Char) : Option ℚ := fbLoop claim_patterns l

/-- `re.sub(r'^\d+\.\s*', '', s)`: drop a leading ordinal-list prefix. -/
def stripOrdinal (s : List Char) : List Char :=
  let ds := s.takeWhile Char.isDigit
  if ds.isEmpty then s
  else
    match s.drop ds.length with
    | '.' :: rest => rest.dropWhile isPySpace
    | _ => s

/-- The per-line processing of the Gemini extraction response (lines
189–215): strip, skip blanks and the sentinel, strip ordinals, emit a claim
with confidence 0.85 and method `"gemini"`, storing it in `claims_db`.
Returns the claims, the next claim counter and the updated store. -/
def geminiLoop (url : String) : List (List Char) → ℕ → ClaimsDb →
    List ClaimRec × ℕ × ClaimsDb
  | [], n, db => ([], n, db)
  | line :: rest, n, db =>
      let st := pyStrip line
      if st.isEmpty || st = "No claims found.".data then
        geminiLoop url rest n db
      else
        let ct := stripOrdinal st
        let c : ClaimRec :=
          ⟨claimId n, ct, 0.85, "gemini", url, none⟩
        let r := geminiLoop url rest (n + 1) (dbSet db c.id c)
        (c :: r.1, r.2)

/-- Sentence-terminal characters of `re.split(r'[.!?]', text)`. -/
def sentEnd (c : Char) : Bool := c = '.' || c = '!' || c = '?'

/-- The heuristic fallback loop (lines 234–258): strip each sentence, skip
fragments shorter than 10 characters, add the first matching pattern's boost
to the 0.5 base, clamp at 0.95, round to 2 places, emit with method
`"pattern_matching"` and store. -/
def heuristicLoop (url : String) : List (List Char) → ℕ → ClaimsDb →
    List ClaimRec × ℕ × ClaimsDb
  | [], n, db => ([], n, db)
  | s :: rest, n, db =>
      let st := pyStrip s
      if st.length < 10 then heuristicLoop url rest n db
      else
        match firstBoost (lowerL st) with
        | none => heuristicLoop url rest n db
        | some b =>
            let c : ClaimRec :=
              ⟨claimId n, st, round2 (pymin 0.95 (0.5 + b)),
                "pattern_matching", url, none⟩
            let r := heuristicLoop url rest (n + 1) (dbSet db c.id c)
            (c :: r.1, r.2)

/-- Stages 1–2 of `extract_claims`: the oracle path (skipped without a key,
any oracle failure caught and discarded), then the heuristic fallback when
the oracle stage produced no claims. -/
def extractMain (text : List Char) (url : String) (ores : OEResp)
    (db : ClaimsDb) : List ClaimRec × ℕ × ClaimsDb :=
  let g : List ClaimRec × ℕ × ClaimsDb :=
    match ores with
    | .text s => geminiLoop url (splitOnChar '\n' (pyStrip s)) 1 db
    | _ => ([], 1, db)
  if g.1.isEmpty then heuristicLoop url (splitOnPred sentEnd text) g.2.1 g.2.2
  else g

/-- The hard-coded demonstration claim appended when the input mentions
vaccines (lines 260–271). -/
def demoClaim (n : ℕ) (url : String) : ClaimRec :=
  ⟨claimId n, "Vaccines cause autism.".data, 0.95, "demo_hardcoded", url, none⟩

/-- `extract_claims(text, url)` under an oracle behaviour `ores`, threading
the claim store; returns the claim list and the updated store. -/
def extract_claims (text : List Char) (url : String) (ores : OEResp)
    (db : ClaimsDb) : List ClaimRec × ClaimsDb :=
  let m := extractMain text url ores db
  if hasSub "vaccine".data (lowerL text) then
    let d := demoClaim m.2.1 url
    (m.1 ++ [d], dbSet m.2.2 d.id d)
  else (m.1, m.2.2)

/-! ## Claim verification (`verify_claim`, lines 276–425) -/

/-- Oracle behaviour for one `verify_claim` call: no key, a raised
computation (the call failing, or the response processing raising before
any mutation — e.g. `json.loads` yielding a non-dict whose `.get` raises,
all caught at line 361), a response without `text`, a response whose text
parses as a JSON object (field lookups with `dict.get` defaults; the
confidence may be any JSON value, numeric or not), or a non-JSON text
handed to the regex fallback. -/
inductive OVResp where
  | noKey
  | raise (e : Exc)
  | noText
  | json (status : Option String) (conf : Option ConfVal)
      (evidence : Option (List (List Char))) (reasoning : Option (List Char))
  | nonJson (raw : List Char)

/-- Oracle behaviours whose stored confidence is numeric: every case except
a parsed JSON object carrying a non-numeric `confidence_score`. -/
def oracleConfNumeric : OVResp → Bool
  | .json _ (some (.ill _)) _ _ => false
  | _ => true

/-- One attempt of `"status":\s*"([^"]+)"` anchored at the head of `l`:
the capture is the maximal non-quote run, which must be non-empty and
closed by a quote. -/
def statusAt (l : List Char) : Option (List Char) :=
  if isPre "\"status\":".data l then
    let r := (l.drop 9).dropWhile isPySpace
    match r with
    | '"' :: rest =>
        let cap := rest.takeWhile (fun c => c ≠ '"')
        if cap ≠ [] ∧ isPre "\"".data (rest.drop cap.length) then some cap
        else none
    | _ => none
  else none

/-- `re.search(r'"status":\s*"([^"]+)"', raw)`: leftmost match's capture. -/
def statusSearch : List Char → Option (List Char)
  | [] => none
  | c :: t =>
      match statusAt (c :: t) with
      | some cap => some cap
      | none => statusSearch t

/-- One attempt of `"confidence_score":\s*([\d\.]+)` anchored at the head:
the capture is the maximal digits-and-dots run, which must be non-empty. -/
def confAt (l : List Char) : Option (List Char) :=
  if isPre "\"confidence_score\":".data l then
    let r := (l.drop 19).dropWhile isPySpace
    let ds := r.takeWhile (fun c => c.isDigit || c = '.')
    if ds ≠ [] then some ds else none
  else none

/-- `re.search(r'"confidence_score":\s*([\d\.]+)', raw)`. -/
def confSearch : List Char → Option (List Char)
  | [] => none
  | c :: t =>
      match confAt (c :: t) with
      | some cap => some cap
      | none => confSearch t

/-- Scanner for `re.findall(r'"([^"]+)"', raw)`: outside a capture a quote
opens one; inside, a quote emits the capture when non-empty, and reopens
immediately when empty (matching the engine's failed attempt at `""`).
Unclosed captures at end of input emit nothing. -/
def fqAux : Option (List Char) → List Char → List (List Char)
  | _, [] => []
  | none, c :: t => if c = '"' then fqAux (some []) t else fqAux none t
  | some acc, c :: t =>
      if c = '"' then
        if acc.isEmpty then fqAux (some []) t
        else acc.reverse :: fqAux none t
      else fqAux (some (c :: acc)) t

def findQuoted (l : List Char) : List (List Char) := fqAux none l

/-- Evidence-and-method tail of the regex fallback (lines 354–359):
evidence is replaced by up to three quoted snippets when any were found,
and the method becomes `"gemini_regex"` unconditionally. -/
def setEvMethod (raw : List Char) (v : Verification) : Verification :=
  let ev := findQuoted raw
  let v' := if ev.isEmpty then v else { v with evidence := ev.take 3 }
  { v' with verification_method := "gemini_regex" }

/-- The `except json.JSONDecodeError` regex fallback (lines 340–359): pull a
status, then a confidence (whose `float()` may raise a `ValueError` that
escapes to the outer handler with the status already mutated), then the
quoted evidence snippets. -/
def regexFallback (raw : List Char) (v : Verification) :
    Except (Exc × Verification) Verification :=
  let v1 :=
    match statusSearch raw with
    | some cap => { v with status := String.mk cap }
    | none => v
  match confSearch raw with
  | some ds =>
      match pyFloat ds with
      | some q => .ok (setEvMethod raw { v1 with confidence_score := .num q })
      | none =>
          .error (.valueError "could not convert string to float", v1)
  | none => .ok (setEvMethod raw v1)

/-- Body of the oracle `try` block of `verify_claim` (lines 307–360). -/
def oracleTryBody (r : OVResp) (v : Verification) :
    Except (Exc × Verification) Verification :=
  match r with
  | .noKey => .ok v
  | .raise e => .error (e, v)
  | .noText => .ok v
  | .json st cf ev rs =>
      .ok { v with
              status := st.getD "Unverified"
              confidence_score := cf.getD (.num 0.5)
              evidence := ev.getD []
              reasoning := some (rs.getD [])
              verification_method := "gemini" }
  | .nonJson raw => regexFallback raw v

/-- Oracle stage of `verify_claim`: skipped entirely without an API key,
otherwise the `try` body with its boundary handler. -/
def oracleStage (r : OVResp) (v : Verification) : Verification :=
  match r with
  | .noKey => v
  | _ => pyTry (oracleTryBody r v)

/-- Wikipedia collaborator behaviours: `wikipedia.search` and
`wikipedia.page`. -/
inductive WSearch where
  | raise (e : Exc)
  | results (l : List String)

inductive WPage where
  | raise (e : Exc)
  | page (purl : String) (content : List Char) (summary : List Char)

/-- `re.findall(r'\b\w{4,}\b', claim_text.lower())`: maximal word-character
runs of length at least 4 in the lowered claim text. -/
def isWordChar (c : Char) : Bool := c.isAlphanum || c = '_'

def wordRunsAux (acc : List Char) : List Char → List (List Char)
  | [] => if acc.isEmpty then [] else [acc.reverse]
  | c :: t =>
      if isWordChar c then wordRunsAux (c :: acc) t
      else if acc.isEmpty then wordRunsAux [] t
      else acc.reverse :: wordRunsAux [] t

def keyTerms (t : List Char) : List (List Char) :=
  (wordRunsAux [] (lowerL t)).filter fun w => 4 ≤ w.length

/-- The term-overlap ratio (lines 382–387): fraction of the claim's key
terms occurring as substrings of the lowered reference content, 0 when
there are no key terms. -/
def matchFrac (claimText content : List Char) : ℚ :=
  if (keyTerms claimText).isEmpty then 0
  else (((keyTerms claimText).filter fun k => hasSub k (lowerL content)).length : ℚ) /
        ((keyTerms claimText).length : ℚ)

/-- Body of the inner `try` around `wikipedia.page` (lines 373–394): record
the page as a source, then on overlap ratio above 0.7 accept a 500-character
summary excerpt as evidence and set the confidence. -/
def wikiPageBody (wp : WPage) (claimText : List Char) (v : Verification) :
    Except (Exc × Verification) Verification :=
  match wp with
  | .raise e => .error (e, v)
  | .page purl content summary =>
      let v1 := { v with sources := v.sources ++ [⟨"Wikipedia", purl⟩] }
      let frac := matchFrac claimText content
      if frac > 0.7 then
        .ok { v1 with
                evidence := v1.evidence ++ [summary.take 500 ++ "...".data]
                confidence_score := .num (0.6 + frac * 0.3) }
      else .ok v1

/-- The Wikipedia stage (lines 365–396): runs only when the evidence list is
still empty; search failures and page failures are caught at their own
boundaries and leave the record as it was. -/
def wikiStage (ws : WSearch) (wp : WPage) (claimText : List Char)
    (v : Verification) : Verification :=
  if v.evidence.isEmpty then
    pyTry
      (match ws with
       | .raise e => .error (e, v)
       | .results [] => .ok v
       | .results (_ :: _) => .ok (pyTry (wikiPageBody wp claimText v)))
  else v

/-- The fixed-override guard (line 399): both tokens required. -/
def vaccineAutism (t : List Char) : Bool :=
  hasSub "vaccine".data (lowerL t) && hasSub "autism".data (lowerL t)

/-- The fixed-override stage (lines 398–410): unconditionally overwrite
status, evidence, sources, confidence and method. -/
def applyOverride (v : Verification) : Verification :=
  { v with
      status := "False"
      evidence :=
        ["Multiple large studies have found no link between vaccines and autism.".data,
         "The original study suggesting a link was retracted due to serious procedural and ethical concerns.".data]
      sources :=
        [⟨"CDC", "https://www.cdc.gov/vaccinesafety/concerns/autism.html"⟩,
         ⟨"WHO", "https://www.who.int/news-room/questions-and-answers/item/vaccines-and-immunization-myths-and-misconceptions"⟩]
      confidence_score := .num 0.95
      verification_method := "demo_hardcoded" }

/-- Final status resolution (lines 412–419).  These comparisons run outside
every `try`: when the slot holds a non-numeric value, the `>` on line 414 is
the first comparison evaluated and raises an uncaught `TypeError`. -/
def resolveStatus (v : Verification) : Except Exc Verification :=
  if v.status = "Unverified" ∧ ¬v.evidence.isEmpty then
    match v.confidence_score with
    | .ill pytype => .error (.typeError pytype)
    | .num q =>
        if q > 0.8 then .ok { v with status := "True" }
        else if q < 0.2 then .ok { v with status := "False" }
        else if ¬v.evidence.isEmpty then .ok { v with status := "Partially True" }
        else .ok v
  else .ok v

/-- Claim-text resolution from the store (lines 288–292): the guard
`if claim_id and claim_id in claims_db` also requires the id to be truthy,
i.e. non-empty. -/
def resolveClaimText (db : ClaimsDb) (cid : Option String)
    (t : List Char) : List Char :=
  match cid with
  | some k =>
      if k = "" then t
      else
        match dbGet db k with
        | some c => c.text
        | none => t
  | none => t

/-- Write-back of the verification onto the stored claim (lines 421–423),
under the same truthy-and-present guard. -/
def attachVerification (db : ClaimsDb) (cid : Option String)
    (v : Verification) : ClaimsDb :=
  match cid with
  | none => db
  | some k =>
      if k = "" then db
      else
        match dbGet db k with
        | none => db
        | some c => dbSet db k { c with verification := some v }

/-- The fresh verification record (lines 295–303, timestamp omitted). -/
def initVerification (t : List Char) : Verification :=
  ⟨t, "Unverified", .num 0.5, [], [], "pattern_matching", none⟩

/-- `verify_claim(claim_text, claim_id)` under oracle behaviour `ores` and
Wikipedia behaviours `ws`, `wp`.  On a completing run it returns the
verification record and the updated claim store; when the resolution step
raises (lines 412–419 sit outside every handler) the exception propagates
to the caller together with the store, which is untouched because the
write-back of line 422 comes after the raise point. -/
def verify_claim (ores : OVResp) (ws : WSearch) (wp : WPage)
    (claim_text : List Char) (claim_id : Option String) (db : ClaimsDb) :
    Except (Exc × ClaimsDb) (Verification × ClaimsDb) :=
  let t := resolveClaimText db claim_id claim_text
  let v1 := oracleStage ores (initVerification t)
  let v2 := wikiStage ws wp t v1
  let v3 := if vaccineAutism t then applyOverride v2 else v2
  match resolveStatus v3 with
  | .ok v4 => .ok (v4, attachVerification db claim_id v4)
  | .error e => .error (e, db)

/-! ## Pipeline (`ingest_url`, `analyze_source`, `calculate_source_credibility`,
lines 39–89 and 519–578) -/

/-- Behaviour of the HTTP fetch plus HTML parse inside `ingest_url`: either
some step of the `try` block raises, or the page yields an optional title,
paragraph texts and an optional publication date. -/
inductive FetchOutcome where
  | raise (e : Exc)
  | page (title : Option (List Char)) (paragraphs : List (List Char))

/-- The dict returned by `ingest_url`: the success and failure shapes carry
different keys, so every key except `url` is optional. -/
structure IngestResult where
  url : String
  title : Option (List Char)
  content : Option (List Char)
  source_domain : Option (List Char)
  error : Option String
  status : Option String
deriving DecidableEq

/-- `url.split("//")[-1].split("/")[0]` (line 80). -/
def sourceDomainOf (url : List Char) : List Char :=
  ((splitOnChar '/' ((splitDSlashAux [] url).getLastD [])).headD [])

/-- Paragraph concatenation of lines 64–66: each paragraph text followed by
a blank line. -/
def joinParas (ps : List (List Char)) : List Char :=
  ps.foldl (fun acc p => acc ++ p ++ "\n\n".data) []

/-- `ingest_url(url)` (lines 39–89): on success a record with title,
truncated content and source domain; on any raise, the failure record with
only `url`, `error` and `status` keys. -/
def ingest_url (url : List Char) (f : FetchOutcome) : IngestResult :=
  match f with
  | .raise e => ⟨String.mk url, none, none, none, some (excStr e), some "failed"⟩
  | .page t ps =>
      ⟨String.mk url, some (t.getD "No title found".data),
        some ((joinParas ps).take 5000), some (sourceDomainOf url),
        none, none⟩

/-- `d["k"]` on a modelled dict field: a `KeyError` when the key is absent. -/
def getItem {α : Type} (o : Option α) (k : String) : Except Exc α :=
  match o with
  | some a => .ok a
  | none => .error (.keyError k)

/-- One element of the `verified_claims` list built by `analyze_source`. -/
structure VerifiedClaim where
  claim_text : List Char
  confidence : ℚ
  verification : Verification
deriving DecidableEq

/-- `calculate_source_credibility(verified_claims)` (lines 564–578). -/
def calculate_source_credibility (verified_claims : List VerifiedClaim) : ℚ :=
  if verified_claims.isEmpty then 0.5
  else
    let total := verified_claims.length
    let true_count :=
      (verified_claims.filter fun vc => vc.verification.status = "True").length
    let false_count :=
      (verified_claims.filter fun vc => vc.verification.status = "False").length
    if 0 < total then
      pymax 0.01 (pymin 0.99
        (0.5 + ((true_count : ℚ) - (false_count : ℚ)) / (2 * total)))
    else 0.5

/-- The per-claim verification loop of `analyze_source` (lines 537–544):
the `i`-th claim is verified under the `i`-th collaborator behaviours,
threading the claim store.  The loop body has no handler, so an exception
raised by `verify_claim` aborts the loop and propagates. -/
def verifyLoop (ovr : ℕ → OVResp) (wsr : ℕ → WSearch) (wpr : ℕ → WPage) :
    List ClaimRec → ℕ → ClaimsDb → Except Exc (List VerifiedClaim × ClaimsDb)
  | [], _, db => .ok ([], db)
  | c :: rest, i, db =>
      match verify_claim (ovr i) (wsr i) (wpr i) c.text (some c.id) db with
      | .error (e, _) => .error e
      | .ok (v, db1) =>
          match verifyLoop ovr wsr wpr rest (i + 1) db1 with
          | .error e => .error e
          | .ok (vs, db2) => .ok (⟨c.text, c.confidence, v⟩ :: vs, db2)

/-- The `SourceAnalysis` report assembled by `analyze_source` (timestamp and
the static rationale string omitted). -/
structure SourceAnalysis where
  url : String
  title : List Char
  source_domain : List Char
  claims_found : ℕ
  claims_verified : ℕ
  verified_claims : List VerifiedClaim
  credibility_score : ℚ
deriving DecidableEq

/-- `analyze_source(url)` (lines 519–561) under a fetch outcome, an
extraction-oracle behaviour and per-claim verification behaviours.  The
unguarded dict accesses `content_data["content"]`, `["title"]` and
`["source_domain"]` are `getItem` steps whose `KeyError` escapes to the
caller — there is no handler in `analyze_source`. -/
def analyze_source (url : List Char) (f : FetchOutcome) (oext : OEResp)
    (ovr : ℕ → OVResp) (wsr : ℕ → WSearch) (wpr : ℕ → WPage)
    (db : ClaimsDb) : Except Exc (SourceAnalysis × ClaimsDb) := do
  let content_data := ingest_url url f
  let content ← getItem content_data.content "content"
  let m := extract_claims content (String.mk url) oext db
  let r ← verifyLoop ovr wsr wpr m.1 0 m.2
  let title ← getItem content_data.title "title"
  let sd ← getItem content_data.source_domain "source_domain"
  .ok (⟨String.mk url, title, sd, m.1.length, r.1.length, r.1,
         calculate_source_credibility r.1⟩, r.2)

/-! ## Concrete fixtures used by witnesses -/

/-- A verified-claim entry whose verification status is `"True"`. -/
def vcTrue : VerifiedClaim :=
  ⟨"c".data, 0.5, ⟨"c".data, "True", .num 0.9, ["e".data], [], "gemini", none⟩⟩

/-- Three all-`"True"` verification outcomes: the T=3, F=0, N=3 instance. -/
def threeTrueVCs : List VerifiedClaim := [vcTrue, vcTrue, vcTrue]

/-- A record in the state the resolution rule fires on. -/
def unresolvedHigh : Verification :=
  ⟨"w".data, "Unverified", .num 0.9, ["e".data], [], "pattern_matching", none⟩

/-- The Paris reference text containing every key term of the Paris claim. -/
def parisRefText : List Char :=
  "paris is the capital and most populous city of france".data

/-- A stored claim used to exercise the store write-back. -/
def storedClaim : ClaimRec :=
  ⟨"claim_1", "Paris is the capital of France".data, 0.85, "gemini", "", none⟩

/-! ## Helper lemmas -/

theorem pymax_le {a b c : ℚ} (h1 : a ≤ c) (h2 : b ≤ c) : pymax a b ≤ c := by
  unfold pymax; split <;> assumption

theorem le_pymax_left (a b : ℚ) : a ≤ pymax a b := by
  unfold pymax; split <;> linarith

theorem pymin_le_left (a b : ℚ) : pymin a b ≤ a := by
  unfold pymin; split <;> linarith

theorem dbGet_dbSet_self (db : ClaimsDb) (k : String) (c : ClaimRec) :
    dbGet (dbSet db k c) k = some c := by
  induction db with
  | nil => simp [dbSet, dbGet]
  | cons e t ih =>
      obtain ⟨k', c'⟩ := e
      by_cases hk : k' = k
      · simp [dbSet, hk, dbGet]
      · simp [dbSet, hk, dbGet, ih]

theorem dbGet_dbSet_ne (db : ClaimsDb) (k : String) (c : ClaimRec)
    (k' : String) (h : k' ≠ k) : dbGet (dbSet db k c) k' = dbGet db k' := by
  induction db with
  | nil => simp [dbSet, dbGet, Ne.symm h]
  | cons e t ih =>
      obtain ⟨k0, c0⟩ := e
      by_cases hk : k0 = k
      · subst hk
        simp [dbSet, dbGet, Ne.symm h]
      · simp [dbSet, hk, dbGet, ih]

theorem resolveStatus_guard_false (v : Verification)
    (h : ¬(v.status = "Unverified" ∧ v.evidence ≠ [])) :
    resolveStatus v = .ok v := by
  have hng : ¬(v.status = "Unverified" ∧ ¬v.evidence.isEmpty = true) := by
    intro hg
    exact h ⟨hg.1, by simpa [List.isEmpty_iff] using hg.2⟩
  rw [resolveStatus, if_neg hng]

theorem resolveStatus_num (v : Verification) (q : ℚ)
    (hg : v.status = "Unverified" ∧ v.evidence ≠ [])
    (hq : v.confidence_score = ConfVal.num q) :
    resolveStatus v = .ok { v with status :=
      if q > 0.8 then "True"
      else if q < 0.2 then "False"
      else "Partially True" } := by
  have hev : v.evidence.isEmpty = false := by
    simp [List.isEmpty_iff, hg.2]
  rw [resolveStatus, hev]
  simp only [Bool.not_false, hg.1, and_true, if_true, hq]
  split_ifs with h1 h2 <;> simp_all

theorem resolveStatus_ill (v : Verification) (pytype : String)
    (hg : v.status = "Unverified" ∧ v.evidence ≠ [])
    (hq : v.confidence_score = ConfVal.ill pytype) :
    resolveStatus v = .error (.typeError pytype) := by
  have hev : v.evidence.isEmpty = false := by
    simp [List.isEmpty_iff, hg.2]
  rw [resolveStatus, hev]
  simp [hg.1, hq]

theorem resolveStatus_isOk_of_num (v : Verification) (q : ℚ)
    (hq : v.confidence_score = ConfVal.num q) :
    (resolveStatus v).isOk = true := by
  by_cases hg : v.status = "Unverified" ∧ v.evidence ≠ []
  · rw [resolveStatus_num v q hg hq]
    rfl
  · rw [resolveStatus_guard_false v hg]
    rfl

theorem resolveStatus_error_shape (v : Verification) (e : Exc)
    (h : resolveStatus v = .error e) : ∃ m, e = .typeError m := by
  by_cases hg : v.status = "Unverified" ∧ v.evidence ≠ []
  · cases hq : v.confidence_score with
    | num q => rw [resolveStatus_num v q hg hq] at h; cases h
    | ill pytype =>
        rw [resolveStatus_ill v pytype hg hq] at h
        cases h
        exact ⟨pytype, rfl⟩
  · rw [resolveStatus_guard_false v hg] at h
    cases h

theorem resolveStatus_applyOverride (v : Verification) :
    resolveStatus (applyOverride v) = .ok (applyOverride v) := by
  apply resolveStatus_guard_false
  intro hg
  have hs : (applyOverride v).status = "False" := rfl
  rw [hs] at hg
  exact absurd hg.1 (by decide)

theorem resolveStatus_ok_conf (v v2 : Verification)
    (h : resolveStatus v = .ok v2) :
    v2.confidence_score = v.confidence_score := by
  by_cases hg : v.status = "Unverified" ∧ v.evidence ≠ []
  · cases hq : v.confidence_score with
    | num q =>
        rw [resolveStatus_num v q hg hq] at h
        cases h
        exact hq
    | ill pytype =>
        rw [resolveStatus_ill v pytype hg hq] at h
        cases h
  · rw [resolveStatus_guard_false v hg] at h
    cases h
    rfl

theorem verify_claim_unfold (ores : OVResp) (ws : WSearch) (wp : WPage)
    (t : List Char) (cid : Option String) (db : ClaimsDb) :
    verify_claim ores ws wp t cid db =
      match resolveStatus (if vaccineAutism (resolveClaimText db cid t)
          then applyOverride (wikiStage ws wp (resolveClaimText db cid t)
            (oracleStage ores (initVerification (resolveClaimText db cid t))))
          else wikiStage ws wp (resolveClaimText db cid t)
            (oracleStage ores (initVerification (resolveClaimText db cid t)))) with
      | .ok v4 => .ok (v4, attachVerification db cid v4)
      | .error e => .error (e, db) := rfl

theorem matchFrac_nonneg (t c : List Char) : 0 ≤ matchFrac t c := by
  unfold matchFrac
  split
  · exact le_refl 0
  · positivity

theorem matchFrac_le_one (t c : List Char) : matchFrac t c ≤ 1 := by
  by_cases h : (keyTerms t).isEmpty
  · simp [matchFrac, h]
  · have hne : keyTerms t ≠ [] := by
      intro he
      simp [he] at h
    have hpos : (0 : ℚ) < ((keyTerms t).length : ℚ) := by
      exact_mod_cast List.length_pos.mpr hne
    rw [matchFrac, if_neg h, div_le_one hpos]
    exact_mod_cast List.length_filter_le _ _

/-! ## Claim theorems

Mathlib marks the kernel-computable core rational operations irreducible;
they are restored to semireducible locally so that `decide` can evaluate the
embedded pipeline on concrete inputs. -/

set_option allowUnsafeReducibility true

attribute [local semireducible] Rat.add Rat.sub Rat.mul Rat.div Rat.inv
  Rat.ofScientific Rat.neg Rat.floor

/-- C1: `calculate_source_credibility` returns 0.5 on the empty list; on
every non-empty list it returns `0.5 + (T - F) / (2N)` clamped to
`[0.01, 0.99]`, where `T` and `F` count verifications with status
`"True"` and `"False"` and `N` is the length; in particular three
`"True"` verifications (T=3, F=0, N=3) give 0.99. -/
theorem spec_C1_source_credibility :
    calculate_source_credibility [] = 0.5
  ∧ (∀ l : List VerifiedClaim, l ≠ [] →
      calculate_source_credibility l =
        pymax 0.01 (pymin 0.99 (0.5 +
          (((l.filter fun vc => vc.verification.status = "True").length : ℚ) -
            ((l.filter fun vc => vc.verification.status = "False").length : ℚ)) /
          (2 * (l.length : ℚ))))
      ∧ 0.01 ≤ calculate_source_credibility l
      ∧ calculate_source_credibility l ≤ 0.99)
  ∧ calculate_source_credibility threeTrueVCs = 0.99 := by
  refine ⟨rfl, ?_, by decide⟩
  intro l hl
  have hne : l.isEmpty = false := by
    simp [List.isEmpty_iff, hl]
  have hpos : 0 < l.length := List.length_pos.mpr hl
  have heq : calculate_source_credibility l =
      pymax 0.01 (pymin 0.99 (0.5 +
        (((l.filter fun vc => vc.verification.status = "True").length : ℚ) -
          ((l.filter fun vc => vc.verification.status = "False").length : ℚ)) /
        (2 * (l.length : ℚ)))) := by
    rw [calculate_source_credibility]
    rw [hne]
    simp [hpos]
  refine ⟨heq, ?_, ?_⟩
  · rw [heq]; exact le_pymax_left _ _
  · rw [heq]
    exact pymax_le (by norm_num) (le_trans (pymin_le_left _ _) (by norm_num))

/-- Witness for C1's non-empty clause at the T=3, F=0, N=3 instance. -/
theorem spec_C1_witness :
    threeTrueVCs ≠ ([] : List VerifiedClaim)
  ∧ 0.01 ≤ calculate_source_credibility threeTrueVCs
  ∧ calculate_source_credibility threeTrueVCs ≤ 0.99 :=
  ⟨by decide,
    (spec_C1_source_credibility.2.1 threeTrueVCs (by decide)).2.1,
    (spec_C1_source_credibility.2.1 threeTrueVCs (by decide)).2.2⟩

/-- C2 (code evaluation): when the fetch raises, `ingest_url` returns the
failure dict, whose `content` key is absent, and `analyze_source` then
raises `KeyError('content')` at its first unguarded dict access instead of
returning a failed-fetch report. -/
theorem spec_C2_fetch_failure_raises (url : List Char) (e : Exc)
    (oext : OEResp) (ovr : ℕ → OVResp) (wsr : ℕ → WSearch)
    (wpr : ℕ → WPage) (db : ClaimsDb) :
    analyze_source url (.raise e) oext ovr wsr wpr db =
      .error (.keyError "content") := rfl

/-- C8: at the end of `verify_claim`, the status is resolved from the
confidence score exactly when it is still `"Unverified"` and the evidence
list is non-empty (a numeric score above 0.8 gives `"True"`, below 0.2
gives `"False"`, anything else `"Partially True"`, the source's spelling
of `PartiallyTrue`); otherwise — in particular whenever evidence is
empty — the record is returned unchanged, so an `"Unverified"` status
stays `"Unverified"`. -/
theorem spec_C8_status_resolution (v : Verification) :
    ((v.status = "Unverified" ∧ v.evidence ≠ []) →
      ∀ q, v.confidence_score = ConfVal.num q →
        resolveStatus v = .ok { v with status :=
          if q > 0.8 then "True"
          else if q < 0.2 then "False"
          else "Partially True" })
  ∧ (¬(v.status = "Unverified" ∧ v.evidence ≠ []) →
      resolveStatus v = .ok v) :=
  ⟨fun hg q hq => resolveStatus_num v q hg hq,
    fun h => resolveStatus_guard_false v h⟩

/-- Witness for C8 at a record with status `"Unverified"`, non-empty
evidence and numeric confidence 0.9. -/
theorem spec_C8_witness :
    (unresolvedHigh.status = "Unverified" ∧ unresolvedHigh.evidence ≠ [])
  ∧ unresolvedHigh.confidence_score = ConfVal.num 0.9
  ∧ resolveStatus unresolvedHigh = .ok { unresolvedHigh with status :=
      if (0.9 : ℚ) > 0.8 then "True"
      else if (0.9 : ℚ) < 0.2 then "False"
      else "Partially True" } :=
  ⟨⟨rfl, by decide⟩, rfl,
    (spec_C8_status_resolution unresolvedHigh).1 ⟨rfl, by decide⟩ 0.9 rfl⟩

/-- C3: whenever the (store-resolved) claim text contains both "vaccine"
and "autism" case-insensitively, `verify_claim` completes and returns
status `"False"`, numeric confidence 0.95, exactly two evidence items and
exactly two sources, whatever the oracle and the knowledge lookup did
before the override. -/
theorem spec_C3_vaccine_autism_override (ores : OVResp) (ws : WSearch)
    (wp : WPage) (t : List Char) (cid : Option String) (db : ClaimsDb)
    (h : vaccineAutism (resolveClaimText db cid t) = true) :
    ((verify_claim ores ws wp t cid db).toOption.map fun r =>
        (r.1.status, r.1.confidence_score, r.1.evidence.length,
          r.1.sources.length))
      = some ("False", ConfVal.num 0.95, 2, 2) := by
  have key : verify_claim ores ws wp t cid db =
      .ok (applyOverride (wikiStage ws wp (resolveClaimText db cid t)
            (oracleStage ores (initVerification (resolveClaimText db cid t)))),
          attachVerification db cid
            (applyOverride (wikiStage ws wp (resolveClaimText db cid t)
              (oracleStage ores
                (initVerification (resolveClaimText db cid t)))))) := by
    rw [verify_claim_unfold]
    simp only [h, if_true, resolveStatus_applyOverride]
  rw [key]
  rfl

/-- Witness for C3 on the claim text "Vaccines cause autism." with the
oracle absent and the knowledge lookup empty. -/
theorem spec_C3_witness :
    vaccineAutism (resolveClaimText [] none "Vaccines cause autism.".data) = true
  ∧ ((verify_claim .noKey (.results []) (.raise (.extErr "w"))
        "Vaccines cause autism.".data none []).toOption.map fun r =>
        (r.1.status, r.1.confidence_score, r.1.evidence.length,
          r.1.sources.length))
      = some ("False", ConfVal.num 0.95, 2, 2) :=
  ⟨by decide,
    spec_C3_vaccine_autism_override .noKey (.results []) (.raise (.extErr "w"))
      "Vaccines cause autism.".data none [] (by decide)⟩

/-- C6: whenever the input text contains "vaccine" case-insensitively,
`extract_claims` appends — after whatever the oracle or heuristic stages
produced — one extra claim with the fixed text "Vaccines cause autism.",
confidence 0.95 and extraction method `"demo_hardcoded"` (the source's
spelling of the spec's `fixed-override`), for every oracle behaviour. -/
theorem spec_C6_vaccine_demo_claim (t : List Char) (url : String)
    (ores : OEResp) (db : ClaimsDb)
    (h : hasSub "vaccine".data (lowerL t) = true) :
    (extract_claims t url ores db).1 =
      (extractMain t url ores db).1 ++
        [demoClaim (extractMain t url ores db).2.1 url]
  ∧ (demoClaim (extractMain t url ores db).2.1 url).text =
      "Vaccines cause autism.".data
  ∧ (demoClaim (extractMain t url ores db).2.1 url).confidence = 0.95
  ∧ (demoClaim (extractMain t url ores db).2.1 url).extraction_method =
      "demo_hardcoded" := by
  refine ⟨?_, rfl, rfl, rfl⟩
  rw [extract_claims]
  simp only [h, if_true]

/-- Witness for C6 on the text "vaccine" with no oracle. -/
theorem spec_C6_witness :
    hasSub "vaccine".data (lowerL "vaccine".data) = true
  ∧ (extract_claims "vaccine".data "" .noKey []).1 =
      (extractMain "vaccine".data "" .noKey []).1 ++
        [demoClaim (extractMain "vaccine".data "" .noKey []).2.1 ""] :=
  ⟨by decide,
    (spec_C6_vaccine_demo_claim "vaccine".data "" .noKey [] (by decide)).1⟩

/-- C7: the knowledge-lookup stage runs only while evidence is empty; when
the search returns a candidate and the page is fetched, an overlap fraction
(`matchFrac`, the share of the claim's lower-cased word tokens of length at
least 4 occurring in the lower-cased reference text) above 0.7 accepts the
summary excerpt as evidence and sets the confidence to `0.6 + frac * 0.3`;
for the Paris claim against a reference containing all of its key terms the
fraction is 1 and `verify_claim` completes with confidence 0.9. -/
theorem spec_C7_knowledge_lookup :
    (∀ (ws : WSearch) (wp : WPage) (t : List Char) (v : Verification),
        v.evidence ≠ [] → wikiStage ws wp t v = v)
  ∧ (∀ (top : String) (rest : List String) (purl : String)
        (content summary t : List Char) (v : Verification),
        v.evidence = [] → matchFrac t content > 0.7 →
        wikiStage (.results (top :: rest)) (.page purl content summary) t v =
          { v with
              sources := v.sources ++ [⟨"Wikipedia", purl⟩]
              evidence := [summary.take 500 ++ "...".data]
              confidence_score := ConfVal.num (0.6 + matchFrac t content * 0.3) })
  ∧ (keyTerms "Paris is the capital of France".data).map String.mk =
      ["paris", "capital", "france"]
  ∧ matchFrac "Paris is the capital of France".data parisRefText = 1
  ∧ ((verify_claim .noKey (.results ["Paris"])
      (.page "u" parisRefText "Paris sum".data)
      "Paris is the capital of France".data none []).toOption.map fun r =>
        r.1.confidence_score)
      = some (ConfVal.num 0.9) := by
  refine ⟨?_, ?_, by decide, by decide, by decide⟩
  · intro ws wp t v hv
    have hev : v.evidence.isEmpty = false := by
      simp [List.isEmpty_iff, hv]
    rw [wikiStage.eq_def, hev]
    simp
  · intro top rest purl content summary t v hv hf
    rw [wikiStage.eq_def]
    simp only [hv, List.isEmpty_nil, if_true, wikiPageBody, pyTry]
    rw [if_pos hf]
    simp [hv]

/-- Witness for C7's acceptance clause at the Paris instance. -/
theorem spec_C7_witness :
    (initVerification "Paris is the capital of France".data).evidence = []
  ∧ matchFrac "Paris is the capital of France".data parisRefText > 0.7
  ∧ wikiStage (.results ["Paris"]) (.page "u" parisRefText "Paris sum".data)
      "Paris is the capital of France".data
      (initVerification "Paris is the capital of France".data) =
      { initVerification "Paris is the capital of France".data with
          sources := (initVerification "Paris is the capital of France".data).sources
            ++ [⟨"Wikipedia", "u"⟩]
          evidence := ["Paris sum".data.take 500 ++ "...".data]
          confidence_score := ConfVal.num (0.6 +
            matchFrac "Paris is the capital of France".data parisRefText * 0.3) } :=
  ⟨rfl, by decide,
    spec_C7_knowledge_lookup.2.1 "Paris" [] "u" parisRefText "Paris sum".data
      "Paris is the capital of France".data
      (initVerification "Paris is the capital of France".data) rfl (by decide)⟩

/-- C5: in heuristic extraction the patterns are tried in the fixed order
(action-state +0.7, causal +0.8, evidentiary +0.75, universal +0.9) and only
the first matching pattern's boost is used, the emitted confidence being
`min(0.95, 0.5 + boost)` (the `round(·, 2)` in the source is the identity on
these values); on the sentence "Studies show this leads to increased risk."
the causal pattern is the first to match — the action-state pattern fails —
and the extracted claim has confidence 0.95 with the heuristic method
(`"pattern_matching"`). -/
theorem spec_C5_heuristic_first_match :
    (∀ (l : List Char) (i : ℕ) (p : List Char → Bool) (b : ℚ),
        claim_patterns.get? i = some (p, b) → p l = true →
        (∀ j, j < i → ∀ q c, claim_patterns.get? j = some (q, c) → q l = false) →
        firstBoost l = some b)
  ∧ (∀ (l : List Char) (b : ℚ), firstBoost l = some b →
        round2 (pymin 0.95 (0.5 + b)) = pymin 0.95 (0.5 + b))
  ∧ (extract_claims "Studies show this leads to increased risk.".data ""
      .noKey []).1 =
      [⟨claimId 1, "Studies show this leads to increased risk".data, 0.95,
        "pattern_matching", "", none⟩]
  ∧ pat2 (lowerL "Studies show this leads to increased risk".data) = true
  ∧ pat1 (lowerL "Studies show this leads to increased risk".data) = false := by
  refine ⟨?_, ?_, by decide, by decide, by decide⟩
  · intro l i p b hi hm hprev
    rcases i with _ | _ | _ | _ | i
    · rw [claim_patterns] at hi
      simp only [List.get?] at hi
      obtain ⟨rfl, rfl⟩ : pat1 = p ∧ (0.7 : ℚ) = b := by
        simpa [Prod.ext_iff] using hi
      simp [firstBoost, fbLoop, claim_patterns, hm]
    · have h0 : pat1 l = false := hprev 0 (by omega) pat1 0.7 rfl
      rw [claim_patterns] at hi
      simp only [List.get?] at hi
      obtain ⟨rfl, rfl⟩ : pat2 = p ∧ (0.8 : ℚ) = b := by
        simpa [Prod.ext_iff] using hi
      simp [firstBoost, fbLoop, claim_patterns, hm, h0]
    · have h0 : pat1 l = false := hprev 0 (by omega) pat1 0.7 rfl
      have h1 : pat2 l = false := hprev 1 (by omega) pat2 0.8 rfl
      rw [claim_patterns] at hi
      simp only [List.get?] at hi
      obtain ⟨rfl, rfl⟩ : pat3 = p ∧ (0.75 : ℚ) = b := by
        simpa [Prod.ext_iff] using hi
      simp [firstBoost, fbLoop, claim_patterns, hm, h0, h1]
    · have h0 : pat1 l = false := hprev 0 (by omega) pat1 0.7 rfl
      have h1 : pat2 l = false := hprev 1 (by omega) pat2 0.8 rfl
      have h2 : pat3 l = false := hprev 2 (by omega) pat3 0.75 rfl
      rw [claim_patterns] at hi
      simp only [List.get?] at hi
      obtain ⟨rfl, rfl⟩ : pat4 = p ∧ (0.9 : ℚ) = b := by
        simpa [Prod.ext_iff] using hi
      simp [firstBoost, fbLoop, claim_patterns, hm, h0, h1, h2]
    · rw [claim_patterns] at hi
      simp [List.get?] at hi
  · intro l b hb
    simp only [firstBoost, claim_patterns, fbLoop] at hb
    split_ifs at hb with h1 h2 h3 h4
    · cases hb; decide
    · cases hb; decide
    · cases hb; decide
    · cases hb; decide

/-- Witness for C5's ordering clause: the causal pattern is entry 1 of the
table, it matches the lowered sentence, the action-state pattern before it
does not, and the first boost is therefore 0.8. -/
theorem spec_C5_witness :
    claim_patterns.get? 1 = some (pat2, 0.8)
  ∧ pat2 (lowerL "Studies show this leads to increased risk".data) = true
  ∧ firstBoost (lowerL "Studies show this leads to increased risk".data) =
      some 0.8 :=
  ⟨rfl, by decide,
    spec_C5_heuristic_first_match.1
      (lowerL "Studies show this leads to increased risk".data) 1 pat2 0.8 rfl
      (by decide)
      (by
        intro j hj q c hq
        match j, hj with
        | 0, _ =>
            obtain ⟨rfl, rfl⟩ : pat1 = q ∧ (0.7 : ℚ) = c := by
              simpa [claim_patterns, Prod.ext_iff] using hq
            decide)⟩

/-- Any boost delivered by the pattern table turns `min(0.95, 0.5 + b)`
into exactly 0.95 (all four boosts exceed the 0.45 gap), and rounding to
two places keeps it. -/
theorem fb_conf_value (l : List Char) (b : ℚ) (h : firstBoost l = some b) :
    round2 (pymin 0.95 (0.5 + b)) = 0.95 := by
  simp only [firstBoost, claim_patterns, fbLoop] at h
  split_ifs at h with h1 h2 h3 h4
  · cases h; decide
  · cases h; decide
  · cases h; decide
  · cases h; decide

/-- Every claim emitted by the oracle extraction loop has confidence 0.85. -/
theorem geminiLoop_mem_conf (url : String) (ls : List (List Char)) (n : ℕ)
    (db : ClaimsDb) (c : ClaimRec) (h : c ∈ (geminiLoop url ls n db).1) :
    c.confidence = 0.85 := by
  induction ls generalizing n db with
  | nil => simp [geminiLoop] at h
  | cons line rest ih =>
      simp only [geminiLoop] at h
      split at h
      · exact ih _ _ h
      · rcases List.mem_cons.mp h with rfl | h2
        · rfl
        · exact ih _ _ h2

/-- Every claim emitted by the heuristic loop has confidence 0.95. -/
theorem heuristicLoop_mem_conf (url : String) (ss : List (List Char)) (n : ℕ)
    (db : ClaimsDb) (c : ClaimRec) (h : c ∈ (heuristicLoop url ss n db).1) :
    c.confidence = 0.95 := by
  induction ss generalizing n db with
  | nil => simp [heuristicLoop] at h
  | cons s rest ih =>
      simp only [heuristicLoop] at h
      split at h
      · exact ih _ _ h
      · split at h
        · exact ih _ _ h
        · rename_i b heq
          rcases List.mem_cons.mp h with rfl | h2
          · exact fb_conf_value _ _ heq
          · exact ih _ _ h2

/-- Claims from stages 1–2 of the extractor carry confidence 0.85 or 0.95. -/
theorem extractMain_mem_conf (t : List Char) (url : String) (ores : OEResp)
    (db : ClaimsDb) (c : ClaimRec) (h : c ∈ (extractMain t url ores db).1) :
    c.confidence = 0.85 ∨ c.confidence = 0.95 := by
  simp only [extractMain] at h
  split at h
  · exact .inr (heuristicLoop_mem_conf _ _ _ _ _ h)
  · split at h
    · exact .inl (geminiLoop_mem_conf _ _ _ _ _ h)
    · simp at h

/-- The evidence-and-method step of the regex fallback does not touch the
confidence slot. -/
theorem setEvMethod_conf (raw : List Char) (v : Verification) :
    (setEvMethod raw v).confidence_score = v.confidence_score := by
  simp only [setEvMethod]
  split <;> rfl

/-- The regex fallback either leaves the confidence slot alone or writes
the numeric `float()` result. -/
theorem regexFallback_conf (raw : List Char) (v : Verification) :
    (pyTry (regexFallback raw v)).confidence_score = v.confidence_score ∨
    ∃ q2, (pyTry (regexFallback raw v)).confidence_score = ConfVal.num q2 := by
  simp only [regexFallback]
  cases hcs : confSearch raw with
  | none =>
      dsimp only
      cases statusSearch raw <;>
        exact Or.inl ((setEvMethod_conf raw _).trans rfl)
  | some ds =>
      dsimp only
      cases hpf : pyFloat ds with
      | some q2 =>
          dsimp only
          exact Or.inr ⟨q2, (setEvMethod_conf raw _).trans rfl⟩
      | none =>
          dsimp only
          cases statusSearch raw <;> exact Or.inl rfl

/-- The oracle stage leaves the confidence numeric for every behaviour
except a parsed JSON object with a non-numeric score. -/
theorem oracleStage_conf_num (r : OVResp) (v : Verification)
    (hr : oracleConfNumeric r = true) (q : ℚ)
    (hv : v.confidence_score = ConfVal.num q) :
    ∃ q2, (oracleStage r v).confidence_score = ConfVal.num q2 := by
  cases r with
  | noKey => exact ⟨q, hv⟩
  | raise e => exact ⟨q, hv⟩
  | noText => exact ⟨q, hv⟩
  | json st cf ev rs =>
      cases cf with
      | none => exact ⟨0.5, rfl⟩
      | some c =>
          cases c with
          | num q2 => exact ⟨q2, rfl⟩
          | ill p => simp [oracleConfNumeric] at hr
  | nonJson raw =>
      rcases regexFallback_conf raw v with h | ⟨q2, h⟩
      · exact ⟨q, h.trans hv⟩
      · exact ⟨q2, h⟩

/-- The Wikipedia stage keeps a numeric confidence numeric. -/
theorem wikiStage_conf_num (ws : WSearch) (wp : WPage) (t : List Char)
    (v : Verification) (q : ℚ) (hq : v.confidence_score = ConfVal.num q) :
    ∃ q2, (wikiStage ws wp t v).confidence_score = ConfVal.num q2 := by
  rw [wikiStage.eq_def]
  split
  · cases ws with
    | raise e => exact ⟨q, hq⟩
    | results l =>
        cases l with
        | nil => exact ⟨q, hq⟩
        | cons x rest =>
            simp only [pyTry]
            cases wp with
            | raise e => exact ⟨q, hq⟩
            | page purl content summary =>
                rw [wikiPageBody]
                split_ifs with hf
                · exact ⟨0.6 + matchFrac t content * 0.3, rfl⟩
                · exact ⟨q, hq⟩
  · exact ⟨q, hq⟩

/-- The Wikipedia stage keeps a bounded numeric confidence inside `[0, 1]`:
it either leaves the slot alone or writes `0.6 + frac * 0.3` with the
overlap fraction in `[0, 1]`. -/
theorem wikiStage_conf_bound (ws : WSearch) (wp : WPage) (t : List Char)
    (v : Verification) (q : ℚ) (hq : v.confidence_score = ConfVal.num q)
    (h0 : 0 ≤ q) (h1 : q ≤ 1) :
    ∃ q2, (wikiStage ws wp t v).confidence_score = ConfVal.num q2 ∧
      0 ≤ q2 ∧ q2 ≤ 1 := by
  rw [wikiStage.eq_def]
  split
  · cases ws with
    | raise e => exact ⟨q, hq, h0, h1⟩
    | results l =>
        cases l with
        | nil => exact ⟨q, hq, h0, h1⟩
        | cons x rest =>
            simp only [pyTry]
            cases wp with
            | raise e => exact ⟨q, hq, h0, h1⟩
            | page purl content summary =>
                rw [wikiPageBody]
                split_ifs with hf
                · have hn := matchFrac_nonneg t content
                  have hl := matchFrac_le_one t content
                  refine ⟨0.6 + matchFrac t content * 0.3, rfl, ?_, ?_⟩
                  · nlinarith
                  · nlinarith
                · exact ⟨q, hq, h0, h1⟩
  · exact ⟨q, hq, h0, h1⟩

/-- C9 counterexample: the never-raises contract fails on the source.  An
oracle JSON answer `{"confidence_score": "high", "evidence": ["ok"]}`
parses, its string confidence is stored unchecked, the Wikipedia stage is
skipped (evidence non-empty), no override fires, and the status-resolution
comparison of line 414 — outside every `try` — raises an uncaught
`TypeError` that escapes `verify_claim`. -/
theorem spec_C9_counterexample :
    verify_claim (.json none (some (.ill "str")) (some ["ok".data]) none)
      (.results []) (.raise (.extErr "w")) "x".data none [] =
      .error (.typeError "str", []) := rfl

/-- C9 (amended): every collaborator failure is absorbed at its stage
boundary with execution degrading to the next stage — an oracle raise or a
missing response text equals the no-oracle run, a search raise equals an
empty search result, and a page-fetch raise equals an empty search
result — and `extract_claims` (total here) never raises; `verify_claim`
completes for every behaviour whose stored confidence is numeric, and the
only exception it can let escape is the `TypeError` of the
status-resolution comparison (line 414), which leaves the claim store
untouched because the write-back of line 422 sits after the raise point.
Ill-typed oracle JSON in the other fields cannot raise in the source
either: `status` is only used in `==` comparisons, and `evidence` is only
tested for truthiness or appended to inside the caught Wikipedia `try`. -/
theorem spec_C9_stage_failures_degrade :
    (∀ (t : List Char) (url : String) (e : Exc) (db : ClaimsDb),
        extract_claims t url (.raise e) db = extract_claims t url .noKey db)
  ∧ (∀ (t : List Char) (url : String) (db : ClaimsDb),
        extract_claims t url .noText db = extract_claims t url .noKey db)
  ∧ (∀ (e : Exc) (ws : WSearch) (wp : WPage) (t : List Char)
        (cid : Option String) (db : ClaimsDb),
        verify_claim (.raise e) ws wp t cid db =
          verify_claim .noKey ws wp t cid db)
  ∧ (∀ (ores : OVResp) (e : Exc) (wp wp' : WPage) (t : List Char)
        (cid : Option String) (db : ClaimsDb),
        verify_claim ores (.raise e) wp t cid db =
          verify_claim ores (.results []) wp' t cid db)
  ∧ (∀ (ores : OVResp) (x : String) (rest : List String) (e : Exc)
        (wp' : WPage) (t : List Char) (cid : Option String) (db : ClaimsDb),
        verify_claim ores (.results (x :: rest)) (.raise e) t cid db =
          verify_claim ores (.results []) wp' t cid db)
  ∧ (∀ (ores : OVResp) (ws : WSearch) (wp : WPage) (t : List Char)
        (cid : Option String) (db : ClaimsDb),
        oracleConfNumeric ores = true →
        (verify_claim ores ws wp t cid db).isOk = true)
  ∧ (∀ (ores : OVResp) (ws : WSearch) (wp : WPage) (t : List Char)
        (cid : Option String) (db : ClaimsDb) (e : Exc) (db2 : ClaimsDb),
        verify_claim ores ws wp t cid db = .error (e, db2) →
        (∃ m, e = .typeError m) ∧ db2 = db) := by
  refine ⟨fun _ _ _ _ => rfl, fun _ _ _ => rfl, fun _ _ _ _ _ _ => rfl,
    fun _ _ _ _ _ _ _ => rfl, fun _ _ _ _ _ _ _ _ => rfl, ?_, ?_⟩
  · intro ores ws wp t cid db hnum
    obtain ⟨q1, hq1⟩ := oracleStage_conf_num ores
      (initVerification (resolveClaimText db cid t)) hnum 0.5 rfl
    obtain ⟨q2, hq2⟩ := wikiStage_conf_num ws wp (resolveClaimText db cid t)
      _ q1 hq1
    have hok : (resolveStatus
        (if vaccineAutism (resolveClaimText db cid t) then
          applyOverride (wikiStage ws wp (resolveClaimText db cid t)
            (oracleStage ores (initVerification (resolveClaimText db cid t))))
        else wikiStage ws wp (resolveClaimText db cid t)
          (oracleStage ores
            (initVerification (resolveClaimText db cid t))))).isOk = true := by
      by_cases hva : vaccineAutism (resolveClaimText db cid t) = true
      · rw [if_pos hva]
        exact resolveStatus_isOk_of_num _ 0.95 rfl
      · rw [if_neg hva]
        exact resolveStatus_isOk_of_num _ q2 hq2
    rw [verify_claim_unfold]
    revert hok
    cases resolveStatus
        (if vaccineAutism (resolveClaimText db cid t) then
          applyOverride (wikiStage ws wp (resolveClaimText db cid t)
            (oracleStage ores (initVerification (resolveClaimText db cid t))))
        else wikiStage ws wp (resolveClaimText db cid t)
          (oracleStage ores
            (initVerification (resolveClaimText db cid t)))) with
    | ok v4 => intro _; rfl
    | error e1 =>
        intro hok
        exact Bool.noConfusion (show false = true from hok)
  · intro ores ws wp t cid db e db2 h
    rw [verify_claim_unfold] at h
    revert h
    cases hres : resolveStatus
        (if vaccineAutism (resolveClaimText db cid t) then
          applyOverride (wikiStage ws wp (resolveClaimText db cid t)
            (oracleStage ores (initVerification (resolveClaimText db cid t))))
        else wikiStage ws wp (resolveClaimText db cid t)
          (oracleStage ores
            (initVerification (resolveClaimText db cid t)))) with
    | ok v4 => intro h; cases h
    | error e1 =>
        intro h
        cases h
        exact ⟨resolveStatus_error_shape _ _ hres, rfl⟩

/-- Witness for C9's completion clause: with no oracle key the run
completes. -/
theorem spec_C9_witness :
    oracleConfNumeric .noKey = true
  ∧ (verify_claim .noKey (.results []) (.raise (.extErr "w")) "x".data none
      []).isOk = true :=
  ⟨rfl, spec_C9_stage_failures_degrade.2.2.2.2.2.1 .noKey (.results [])
    (.raise (.extErr "w")) "x".data none [] rfl⟩

/-- C4 counterexample: the strict JSON parse copies the oracle's
`confidence_score` without clamping, so an oracle answer of 1.5 survives to
the returned record, outside `[0, 1]`. -/
theorem spec_C4_confidence_counterexample :
    ((verify_claim (.json (some "True") (some (.num 1.5)) (some ["e".data])
        none) (.results []) (.raise (.extErr "w")) "x".data none
        []).toOption.map fun r => r.1.confidence_score)
      = some (ConfVal.num 1.5)
  ∧ confInUnit (ConfVal.num 1.5) = false := by
  constructor
  · rfl
  · decide

/-- C4 amended: every confidence produced by `extract_claims` lies in
`[0, 1]` (0.85 on the oracle path, 0.95 on the heuristic and override
paths), and whenever the oracle stage contributed nothing (no key, raised
call, or missing response text) `verify_claim` completes with a numeric
confidence score in `[0, 1]` — the default 0.5, the knowledge-lookup value
`0.6 + frac * 0.3` and the override's 0.95 are all bounded; only a score
taken from oracle output by the strict JSON parse or the regex fallback is
used unclamped. -/
theorem spec_C4_confidence_amended :
    (∀ (t : List Char) (url : String) (ores : OEResp) (db : ClaimsDb)
        (c : ClaimRec), c ∈ (extract_claims t url ores db).1 →
        0 ≤ c.confidence ∧ c.confidence ≤ 1)
  ∧ (∀ (ores : OVResp) (ws : WSearch) (wp : WPage) (t : List Char)
        (cid : Option String) (db : ClaimsDb),
        (ores = .noKey ∨ (∃ e, ores = .raise e) ∨ ores = .noText) →
        ((verify_claim ores ws wp t cid db).toOption.map fun r =>
          confInUnit r.1.confidence_score) = some true) := by
  constructor
  · intro t url ores db c h
    simp only [extract_claims] at h
    split at h
    · rcases List.mem_append.mp h with h2 | h2
      · rcases extractMain_mem_conf _ _ _ _ _ h2 with he | he <;>
          rw [he] <;> constructor <;> norm_num
      · rcases List.mem_singleton.mp h2 with rfl
        constructor <;> norm_num [demoClaim]
    · rcases extractMain_mem_conf _ _ _ _ _ h with he | he <;>
        rw [he] <;> constructor <;> norm_num
  · intro ores ws wp t cid db hor
    have h1 : oracleStage ores
        (initVerification (resolveClaimText db cid t)) =
        initVerification (resolveClaimText db cid t) := by
      rcases hor with rfl | ⟨e, rfl⟩ | rfl <;> rfl
    obtain ⟨q2, hq2, hb0, hb1⟩ := wikiStage_conf_bound ws wp
      (resolveClaimText db cid t)
      (initVerification (resolveClaimText db cid t)) 0.5 rfl (by norm_num)
      (by norm_num)
    rw [verify_claim_unfold, h1]
    by_cases hva : vaccineAutism (resolveClaimText db cid t) = true
    · rw [if_pos hva, resolveStatus_applyOverride]
      rfl
    · rw [if_neg hva]
      cases hres : resolveStatus (wikiStage ws wp (resolveClaimText db cid t)
          (initVerification (resolveClaimText db cid t))) with
      | ok v4 =>
          have hc : v4.confidence_score = ConfVal.num q2 :=
            (resolveStatus_ok_conf _ _ hres).trans hq2
          show some (confInUnit v4.confidence_score) = some true
          rw [hc]
          simp only [confInUnit]
          rw [decide_eq_true hb0, decide_eq_true hb1]
          rfl
      | error e =>
          exfalso
          have hok := resolveStatus_isOk_of_num _ q2 hq2
          rw [hres] at hok
          exact Bool.noConfusion (show false = true from hok)

/-- Witness for C4's amended clauses: the demonstration claim of a
"vaccine" text, and a completing `verify_claim` run with no oracle key. -/
theorem spec_C4_witness :
    demoClaim 1 "" ∈ (extract_claims "vaccine".data "" .noKey []).1
  ∧ (0 ≤ (demoClaim 1 "").confidence ∧ (demoClaim 1 "").confidence ≤ 1)
  ∧ ((verify_claim .noKey (.results []) (.raise (.extErr "w")) "x".data none
      []).toOption.map fun r => confInUnit r.1.confidence_score) = some true :=
  ⟨by decide,
    spec_C4_confidence_amended.1 "vaccine".data "" .noKey [] (demoClaim 1 "")
      (by decide),
    spec_C4_confidence_amended.2 .noKey (.results []) (.raise (.extErr "w"))
      "x".data none [] (Or.inl rfl)⟩

/-- C10: when `claim_id` names a stored claim (ids have the shape
`claim_n`, hence non-empty, matching the source's truthiness guard), a
completing `verify_claim` writes only that claim's `verification` slot —
the stored id, text, confidence, extraction method and source url are
untouched — every other store entry is unchanged, and a second completing
call on the same id replaces the previous attachment rather than merging
with it; a raising run leaves the store untouched entirely. -/
theorem spec_C10_store_frame (ores : OVResp) (ws : WSearch) (wp : WPage)
    (t : List Char) (cid : String) (db : ClaimsDb) (c : ClaimRec)
    (h : dbGet db cid = some c) (hne : cid ≠ "") :
    (∀ v db2, verify_claim ores ws wp t (some cid) db = .ok (v, db2) →
        dbGet db2 cid = some { c with verification := some v }
      ∧ ∀ k, k ≠ cid → dbGet db2 k = dbGet db k)
  ∧ (∀ e db2, verify_claim ores ws wp t (some cid) db = .error (e, db2) →
      db2 = db)
  ∧ (∀ v db2, verify_claim ores ws wp t (some cid) db = .ok (v, db2) →
      ∀ (ores2 : OVResp) (ws2 : WSearch) (wp2 : WPage) (t2 : List Char)
        (v2 : Verification) (db3 : ClaimsDb),
        verify_claim ores2 ws2 wp2 t2 (some cid) db2 = .ok (v2, db3) →
          dbGet db3 cid = some { c with verification := some v2 }) := by
  have hdb : ∀ (o : OVResp) (w : WSearch) (p : WPage) (tt : List Char)
      (d : ClaimsDb) (cc : ClaimRec) (v : Verification) (d2 : ClaimsDb),
      dbGet d cid = some cc →
      verify_claim o w p tt (some cid) d = .ok (v, d2) →
      d2 = dbSet d cid { cc with verification := some v } := by
    intro o w p tt d cc v d2 hcc hok
    rw [verify_claim_unfold] at hok
    revert hok
    cases resolveStatus
        (if vaccineAutism (resolveClaimText d (some cid) tt) then
          applyOverride (wikiStage w p (resolveClaimText d (some cid) tt)
            (oracleStage o (initVerification (resolveClaimText d (some cid) tt))))
        else wikiStage w p (resolveClaimText d (some cid) tt)
          (oracleStage o
            (initVerification (resolveClaimText d (some cid) tt)))) with
    | ok v4 =>
        intro hok
        cases hok
        simp only [attachVerification, if_neg hne, hcc]
    | error e1 => intro hok; cases hok
  refine ⟨?_, ?_, ?_⟩
  · intro v db2 hok
    have e1 := hdb ores ws wp t db c v db2 h hok
    subst e1
    exact ⟨dbGet_dbSet_self _ _ _, fun k hk => dbGet_dbSet_ne _ _ _ _ hk⟩
  · intro e db2 herr
    rw [verify_claim_unfold] at herr
    revert herr
    cases resolveStatus
        (if vaccineAutism (resolveClaimText db (some cid) t) then
          applyOverride (wikiStage ws wp (resolveClaimText db (some cid) t)
            (oracleStage ores
              (initVerification (resolveClaimText db (some cid) t))))
        else wikiStage ws wp (resolveClaimText db (some cid) t)
          (oracleStage ores
            (initVerification (resolveClaimText db (some cid) t)))) with
    | ok v4 => intro herr; cases herr
    | error e1 => intro herr; cases herr; rfl
  · intro v db2 hok ores2 ws2 wp2 t2 v2 db3 hok2
    have e1 := hdb ores ws wp t db c v db2 h hok
    subst e1
    have h2 : dbGet (dbSet db cid { c with verification := some v }) cid =
        some { c with verification := some v } := dbGet_dbSet_self _ _ _
    have e2 := hdb ores2 ws2 wp2 t2 _ _ v2 db3 h2 hok2
    subst e2
    rw [dbGet_dbSet_self]

/-- Witness for C10 on a one-entry store with a completing run. -/
theorem spec_C10_witness :
    verify_claim .noKey (.results []) (.raise (.extErr "w")) "x".data
      (some "claim_1") [("claim_1", storedClaim)] =
      .ok (initVerification storedClaim.text,
        dbSet [("claim_1", storedClaim)] "claim_1"
          { storedClaim with
              verification := some (initVerification storedClaim.text) })
  ∧ dbGet (dbSet [("claim_1", storedClaim)] "claim_1"
        { storedClaim with
            verification := some (initVerification storedClaim.text) })
      "claim_1" =
      some { storedClaim with
          verification := some (initVerification storedClaim.text) } :=
  ⟨rfl,
    ((spec_C10_store_frame .noKey (.results []) (.raise (.extErr "w"))
        "x".data "claim_1" [("claim_1", storedClaim)] storedClaim (by decide)
        (by decide)).1 (initVerification storedClaim.text)
      (dbSet [("claim_1", storedClaim)] "claim_1"
        { storedClaim with
            verification := some (initVerification storedClaim.text) })
      rfl).1⟩
